import Mathlib

/-!
# instrumented_service_node.cpp : a shallow embedding

The embedding follows `src/instrumented_service_node.cpp`.

* `std::chrono::system_clock::time_point` is its count of nanoseconds since the
  epoch (a signed 64-bit count in the source, an `Int` here; no arithmetic is done
  on it, so no wrap-around can occur). A value-initialised time point `{}` is `0`.
* `std::string` is `String`; `std::vector` is `List` with `push_back` appending at
  the end.
* `std::chrono::system_clock::now()` is an input: every call of the service callback
  receives the two readings it takes, in the order it takes them.
* `std::localtime` depends on the time zone of the process and is a parameter.
* `std::ofstream` is a flag (did `open` succeed) and the text written so far; writes
  to a stream that failed to open are dropped, as `operator<<` does on a stream whose
  failbit is set.
-/

namespace InstrumentedService

/-! ## std::to_string -/

/-- Decimal rendering of `std::to_string(long long)`: a minus sign for a negative value,
then the digits of the magnitude, most significant first, no padding. -/
def to_string (v : Int) : String :=
  if v < 0 then "-" ++ String.mk (Nat.toDigits 10 v.natAbs)
  else String.mk (Nat.toDigits 10 v.toNat)

/-! ## ServiceRequestRecord -/

/-- A time point of `std::chrono::system_clock`, as nanoseconds since the epoch. -/
abbrev time_point := Int

/-- The class `ServiceRequestRecord`: four time stamps. -/
structure ServiceRequestRecord where
  source_timestamp : time_point
  destination_timestamp : time_point
  callback_timestamp : time_point
  response_sent_timestamp : time_point
  deriving DecidableEq

/-- The static member `ServiceRequestRecord::csv_header`. -/
def ServiceRequestRecord.csv_header : String :=
  "source timestamp, destination timestamp, callback timestamp, response sent timestamp"

/-- The static member `ServiceRequestRecord::timestamp_to_string`: the nanosecond count of
`time_since_epoch()` passed to `std::to_string`. -/
def ServiceRequestRecord.timestamp_to_string (timestamp : time_point) : String :=
  to_string timestamp

/-- The member `ServiceRequestRecord::to_csv`: the four renderings joined with `+`. -/
def ServiceRequestRecord.to_csv (r : ServiceRequestRecord) : String :=
  ServiceRequestRecord.timestamp_to_string r.source_timestamp ++
  ServiceRequestRecord.timestamp_to_string r.destination_timestamp ++
  ServiceRequestRecord.timestamp_to_string r.callback_timestamp ++
  ServiceRequestRecord.timestamp_to_string r.response_sent_timestamp

/-! ## InstrumentedServiceNode: construction and the service callback -/

/-- The data members of `InstrumentedServiceNode` that the destructor reads, with the
fully qualified name the base class `rclcpp::Node` reports. -/
structure InstrumentedServiceNode where
  fully_qualified_name : String
  start_time_ : time_point
  service_request_records_ : List ServiceRequestRecord
  deriving DecidableEq

/-- The constructor: `start_time_` is the clock reading `now`, the vector starts empty. -/
def InstrumentedServiceNode.create (fully_qualified_name : String) (now : time_point) :
    InstrumentedServiceNode :=
  { fully_qualified_name := fully_qualified_name
    start_time_ := now
    service_request_records_ := [] }

/-- The call `v.push_back(r)`. -/
def push_back (v : List ServiceRequestRecord) (r : ServiceRequestRecord) :
    List ServiceRequestRecord :=
  v ++ [r]

/-- The assignment `v.back().response_sent_timestamp = t`. On an empty vector the source
has no defined behaviour; the callback only reaches it right after a `push_back`. -/
def set_back_response_sent : List ServiceRequestRecord → time_point → List ServiceRequestRecord
  | [], _ => []
  | [r], t => [{ r with response_sent_timestamp := t }]
  | r :: r' :: rs, t => r :: set_back_response_sent (r' :: rs) t

/-- The lambda registered with `create_service`. `now₁` is the reading of
`system_clock::now()` on entry, `now₂` the reading taken for `response_sent_timestamp`. -/
def InstrumentedServiceNode.service_callback (node : InstrumentedServiceNode)
    (now₁ now₂ : time_point) : InstrumentedServiceNode :=
  let now := now₁
  let records := push_back node.service_request_records_
    { source_timestamp := 0
      destination_timestamp := 0
      callback_timestamp := now
      response_sent_timestamp := 0 }
  { node with service_request_records_ := set_back_response_sent records now₂ }

/-- A sequence of delivered requests, each with the two clock readings its callback takes. -/
def InstrumentedServiceNode.handle_requests (node : InstrumentedServiceNode)
    (requests : List (time_point × time_point)) : InstrumentedServiceNode :=
  requests.foldl (fun n p => n.service_callback p.1 p.2) node

/-- The record the callback leaves in the vector for clock readings `p.1`, `p.2`. -/
def record_of_request (p : time_point × time_point) : ServiceRequestRecord :=
  { source_timestamp := 0
    destination_timestamp := 0
    callback_timestamp := p.1
    response_sent_timestamp := p.2 }

/-! ## InstrumentedServiceNode: the destructor -/

/-- The call `std::replace(s.begin(), s.end(), old_value, new_value)`. -/
def replace (s : String) (old_value new_value : Char) : String :=
  String.mk (s.data.map (fun c => if c = old_value then new_value else c))

/-- The call `system_clock::to_time_t`: whole seconds, `duration_cast` truncating
towards zero. -/
def to_time_t (t : time_point) : Int :=
  Int.tdiv t 1000000000

/-- The fields of `struct tm` that the format string reads. -/
structure tm where
  tm_year : Int
  tm_mon : Int
  tm_mday : Int
  tm_hour : Int
  tm_min : Int
  tm_sec : Int
  deriving DecidableEq

/-- A two-digit field of `strftime` (`%m`, `%d`, `%H`, `%M`, `%S`): padded with a zero on
the left to width 2. -/
def two_digits (v : Int) : String :=
  let s := to_string v
  if s.length < 2 then "0" ++ s else s

/-- The call `std::put_time(t, "%Y.%m.%d-%H:%M:%S")`: `%Y` is the year `tm_year + 1900`
in decimal, `%m` the month `tm_mon + 1`. -/
def put_time (t : tm) : String :=
  to_string (t.tm_year + 1900) ++ "." ++ two_digits (t.tm_mon + 1) ++ "." ++
  two_digits t.tm_mday ++ "-" ++ two_digits t.tm_hour ++ ":" ++ two_digits t.tm_min ++
  ":" ++ two_digits t.tm_sec

/-- The name of the output file, as the destructor composes it. -/
def file_name (localtime : Int → tm) (fully_qualified_name : String)
    (start_time_ : time_point) : String :=
  let node_name := replace fully_qualified_name '/' '_'
  let start_time_time_t := to_time_t start_time_
  let start_time_str := put_time (localtime start_time_time_t)
  "records__" ++ node_name ++ "__" ++ start_time_str ++ ".csv"

/-- A `std::ofstream`: whether `open` succeeded, and the text written to the file. -/
structure ofstream where
  is_open : Bool
  contents : String
  deriving DecidableEq

/-- The call `file.open(name)`; `open_ok` tells whether the file could be opened. -/
def ofstream.open_file (open_ok : Bool) : ofstream :=
  { is_open := open_ok, contents := "" }

/-- The expression `file << s`: appends when the stream is open, does nothing otherwise. -/
def ofstream.put (f : ofstream) (s : String) : ofstream :=
  if f.is_open then { f with contents := f.contents ++ s } else f

/-- The expression `file << std::endl`: a line break (and a flush). -/
def ofstream.endl (f : ofstream) : ofstream :=
  f.put "\n"

/-- What the destructor does that can be seen from outside: the text it prints on the
standard output, the text it prints on the standard error channel, and the file it
leaves behind (`none` when no file was opened). The destructor has no return value and
no `throw`, `abort` or `exit`: it always runs to its end. -/
structure ShutdownEffect where
  stdout_text : String
  stderr_text : String
  file : Option (String × String)
  deriving DecidableEq

/-- The stream after the destructor's writes: the header line, then one line per record. -/
def write_records (file : ofstream) (records : List ServiceRequestRecord) : ofstream :=
  let file := (file.put ServiceRequestRecord.csv_header).endl
  records.foldl (fun f record => (f.put record.to_csv).endl) file

/-- The destructor `~InstrumentedServiceNode`. -/
def InstrumentedServiceNode.destructor (localtime : Int → tm) (open_ok : Bool)
    (node : InstrumentedServiceNode) : ShutdownEffect :=
  let name := file_name localtime node.fully_qualified_name node.start_time_
  let printed := "Writing output file \x27" ++ name ++ "\x27...\n"
  let file := write_records (ofstream.open_file open_ok) node.service_request_records_
  { stdout_text := printed
    stderr_text := ""
    file := if file.is_open then some (name, file.contents) else none }

/-! ## Reading a decimal integer back -/

/-- The value of a run of decimal digits, most significant first. -/
def digits_value (ds : List Char) : Nat :=
  ds.foldl (fun acc c => acc * 10 + (c.toNat - 48)) 0

/-- Reads a non-empty run of decimal digits. -/
def parse_digits (ds : List Char) : Option Nat :=
  if ds ≠ [] ∧ ds.all Char.isDigit then some (digits_value ds) else none

/-- Reads a decimal integer: an optional minus sign, then a non-empty run of digits, and
nothing else. This is the reader the round trip of `timestamp_to_string` is stated
against; it is not part of the source. -/
def parse_decimal (s : String) : Option Int :=
  match s.data with
  | '-' :: ds => Option.map (fun (n : Nat) => - Int.ofNat n) (parse_digits ds)
  | ds => Option.map (fun (n : Nat) => Int.ofNat n) (parse_digits ds)

/-- The text of a file cut at its line breaks: every line that ends in a line break,
and the text after the last one. -/
def split_lines (s : String) : List (List Char) :=
  List.splitOn '\n' s.data

/-- The lines the destructor writes, each followed by its line break, glued together. -/
def lines_text : List String → String
  | [] => ""
  | l :: ls => l ++ "\n" ++ lines_text ls

/-- The function `std::localtime` of a process whose time zone is UTC: the proleptic
Gregorian calendar date and the time of day of `t` seconds since 1970-01-01 00:00:00,
by the usual days-to-civil computation over 400-year eras starting on 1 March. All
divisions have a positive divisor and round down. -/
def utc_localtime (t : Int) : tm :=
  let days := Int.fdiv t 86400
  let secs := Int.fmod t 86400
  let z := days + 719468
  let era := Int.fdiv z 146097
  let doe := z - era * 146097
  let yoe := Int.fdiv (doe - Int.fdiv doe 1460 + Int.fdiv doe 36524 - Int.fdiv doe 146096) 365
  let doy := doe - (365 * yoe + Int.fdiv yoe 4 - Int.fdiv yoe 100)
  let mp := Int.fdiv (5 * doy + 2) 153
  let d := doy - Int.fdiv (153 * mp + 2) 5 + 1
  let m := if mp < 10 then mp + 3 else mp - 9
  let y := yoe + era * 400 + (if m ≤ 2 then 1 else 0)
  { tm_year := y - 1900
    tm_mon := m - 1
    tm_mday := d
    tm_hour := Int.fdiv secs 3600
    tm_min := Int.fdiv (Int.fmod secs 3600) 60
    tm_sec := Int.fmod secs 60 }

/-! ## Decimal digits -/

theorem toDigitsCore_eq (fuel : Nat) : ∀ (n : Nat) (ds : List Char), n < fuel →
    Nat.toDigitsCore 10 fuel n ds = Nat.toDigits 10 n ++ ds := by
  induction fuel using Nat.strong_induction_on with
  | _ fuel ih =>
    intro n ds hn
    cases fuel with
    | zero => omega
    | succ f =>
      by_cases h : n / 10 = 0
      · simp [Nat.toDigits, Nat.toDigitsCore, h]
      · have h1 : n / 10 < f := by omega
        have h2 : n / 10 < n := by omega
        have e1 := ih f (by omega) (n / 10) (Nat.digitChar (n % 10) :: ds) h1
        have e2 := ih n (by omega) (n / 10) [Nat.digitChar (n % 10)] h2
        simp only [Nat.toDigits, Nat.toDigitsCore, h, if_false] at e1 e2 ⊢
        rw [e1, e2]
        simp

theorem toDigits_small (n : Nat) (h : n < 10) : Nat.toDigits 10 n = [Nat.digitChar n] := by
  have h0 : n / 10 = 0 := by omega
  have h1 : n % 10 = n := by omega
  simp [Nat.toDigits, Nat.toDigitsCore, h0, h1]

theorem toDigits_large (n : Nat) (h : 10 ≤ n) :
    Nat.toDigits 10 n = Nat.toDigits 10 (n / 10) ++ [Nat.digitChar (n % 10)] := by
  have h0 : n / 10 ≠ 0 := by omega
  have e := toDigitsCore_eq n (n / 10) [Nat.digitChar (n % 10)] (by omega)
  simp only [Nat.toDigits, Nat.toDigitsCore, h0, if_false] at e ⊢
  exact e

theorem digitChar_isDigit (k : Nat) (h : k < 10) : (Nat.digitChar k).isDigit = true := by
  interval_cases k <;> decide

theorem digitChar_toNat (k : Nat) (h : k < 10) : (Nat.digitChar k).toNat - 48 = k := by
  interval_cases k <;> decide

theorem toDigits_ne_nil (n : Nat) : Nat.toDigits 10 n ≠ [] := by
  by_cases h : n < 10
  · simp [toDigits_small n h]
  · simp [toDigits_large n (by omega)]

theorem toDigits_isDigit (n : Nat) : ∀ c ∈ Nat.toDigits 10 n, c.isDigit = true := by
  induction n using Nat.strong_induction_on with
  | _ n ih =>
    intro c hc
    by_cases h : n < 10
    · rw [toDigits_small n h] at hc
      simp only [List.mem_singleton] at hc
      subst hc
      exact digitChar_isDigit n h
    · rw [toDigits_large n (by omega), List.mem_append] at hc
      rcases hc with hc | hc
      · exact ih (n / 10) (by omega) c hc
      · simp only [List.mem_singleton] at hc
        subst hc
        exact digitChar_isDigit _ (by omega)

theorem digits_value_toDigits (n : Nat) : digits_value (Nat.toDigits 10 n) = n := by
  induction n using Nat.strong_induction_on with
  | _ n ih =>
    by_cases h : n < 10
    · rw [toDigits_small n h]
      simp [digits_value, digitChar_toNat n h]
    · have e := ih (n / 10) (by omega)
      rw [toDigits_large n (by omega)]
      unfold digits_value at e ⊢
      rw [List.foldl_append, e]
      simp only [List.foldl_cons, List.foldl_nil]
      rw [digitChar_toNat _ (by omega)]
      omega

theorem parse_digits_toDigits (n : Nat) : parse_digits (Nat.toDigits 10 n) = some n := by
  unfold parse_digits
  rw [if_pos ⟨toDigits_ne_nil n, List.all_eq_true.mpr (toDigits_isDigit n)⟩,
    digits_value_toDigits]

theorem toDigits_head_ne_minus (n : Nat) (ds : List Char) : Nat.toDigits 10 n ≠ '-' :: ds := by
  intro h
  have := toDigits_isDigit n '-' (by rw [h]; exact List.mem_cons_self _ _)
  exact absurd this (by decide)

theorem parse_decimal_minus (ds : List Char) :
    parse_decimal ("-" ++ String.mk ds) =
      Option.map (fun (n : Nat) => - Int.ofNat n) (parse_digits ds) := rfl

theorem parse_decimal_to_string (v : Int) : parse_decimal (to_string v) = some v := by
  unfold to_string
  by_cases h : v < 0
  · rw [if_pos h, parse_decimal_minus, parse_digits_toDigits]
    simp only [Option.map_some', Option.some.injEq, Int.ofNat_eq_coe]
    omega
  · rw [if_neg h]
    unfold parse_decimal
    split
    · rename_i ds hd
      exact absurd hd (toDigits_head_ne_minus _ ds)
    · rw [parse_digits_toDigits]
      simp only [Option.map_some', Option.some.injEq, Int.ofNat_eq_coe]
      omega

/-! ## The record store -/

theorem set_back_response_sent_append (v : List ServiceRequestRecord)
    (r : ServiceRequestRecord) (t : time_point) :
    set_back_response_sent (v ++ [r]) t = v ++ [{ r with response_sent_timestamp := t }] := by
  induction v with
  | nil => rfl
  | cons a v ih =>
    cases v with
    | nil => rfl
    | cons b v =>
      show a :: set_back_response_sent ((b :: v) ++ [r]) t = _
      rw [ih]
      rfl

theorem service_callback_records (node : InstrumentedServiceNode) (now₁ now₂ : time_point) :
    (node.service_callback now₁ now₂).service_request_records_ =
      node.service_request_records_ ++ [record_of_request (now₁, now₂)] := by
  unfold InstrumentedServiceNode.service_callback push_back
  simp only [set_back_response_sent_append]
  rfl

theorem handle_requests_records (requests : List (time_point × time_point)) :
    ∀ node : InstrumentedServiceNode,
      (node.handle_requests requests).service_request_records_ =
        node.service_request_records_ ++ requests.map record_of_request := by
  induction requests with
  | nil => intro node; simp [InstrumentedServiceNode.handle_requests]
  | cons p ps ih =>
    intro node
    have e := ih (node.service_callback p.1 p.2)
    unfold InstrumentedServiceNode.handle_requests at e ⊢
    rw [List.foldl_cons, e, service_callback_records]
    simp

theorem create_handle_requests_records (name : String) (start : time_point)
    (requests : List (time_point × time_point)) :
    ((InstrumentedServiceNode.create name start).handle_requests
        requests).service_request_records_ = requests.map record_of_request := by
  rw [handle_requests_records]
  rfl

/-! ## Characters of the rendered text -/

theorem to_string_chars (v : Int) : ∀ c ∈ (to_string v).data, c = '-' ∨ c.isDigit = true := by
  intro c hc
  unfold to_string at hc
  by_cases h : v < 0
  · rw [if_pos h] at hc
    have hc' : c ∈ '-' :: Nat.toDigits 10 v.natAbs := hc
    rcases List.mem_cons.mp hc' with e | e
    · exact Or.inl e
    · exact Or.inr (toDigits_isDigit _ c e)
  · rw [if_neg h] at hc
    exact Or.inr (toDigits_isDigit _ c hc)

theorem to_csv_chars (r : ServiceRequestRecord) :
    ∀ c ∈ r.to_csv.data, c = '-' ∨ c.isDigit = true := by
  intro c hc
  unfold ServiceRequestRecord.to_csv ServiceRequestRecord.timestamp_to_string at hc
  simp only [String.data_append, List.mem_append] at hc
  rcases hc with ((hc | hc) | hc) | hc <;> exact to_string_chars _ c hc

theorem to_csv_no_line_break (r : ServiceRequestRecord) : '\n' ∉ r.to_csv.data := by
  intro h
  rcases to_csv_chars r '\n' h with e | e
  · exact absurd e (by decide)
  · exact absurd e (by decide)

theorem to_csv_no_comma (r : ServiceRequestRecord) : ',' ∉ r.to_csv.data := by
  intro h
  rcases to_csv_chars r ',' h with e | e
  · exact absurd e (by decide)
  · exact absurd e (by decide)

/-! ## The text written at shutdown -/

theorem foldl_put_endl (records : List ServiceRequestRecord) : ∀ text : String,
    records.foldl (fun f record => (f.put record.to_csv).endl)
        ({ is_open := true, contents := text } : ofstream) =
      { is_open := true,
        contents := text ++ lines_text (records.map ServiceRequestRecord.to_csv) } := by
  induction records with
  | nil => intro text; simp [lines_text]
  | cons r rs ih =>
    intro text
    rw [List.foldl_cons]
    have e : (({ is_open := true, contents := text } : ofstream).put r.to_csv).endl =
        { is_open := true, contents := text ++ r.to_csv ++ "\n" } := rfl
    rw [e, ih]
    simp [lines_text, String.append_assoc]


theorem write_records_open (records : List ServiceRequestRecord) :
    write_records (ofstream.open_file true) records =
      { is_open := true,
        contents := lines_text (ServiceRequestRecord.csv_header ::
          records.map ServiceRequestRecord.to_csv) } := by
  unfold write_records
  have e : ((ofstream.open_file true).put ServiceRequestRecord.csv_header).endl =
      { is_open := true, contents := ServiceRequestRecord.csv_header ++ "\n" } := rfl
  simp only [e, foldl_put_endl, lines_text]

theorem write_records_closed (records : List ServiceRequestRecord) :
    write_records (ofstream.open_file false) records = { is_open := false, contents := "" } := by
  unfold write_records
  have e : ((ofstream.open_file false).put ServiceRequestRecord.csv_header).endl =
      { is_open := false, contents := "" } := rfl
  rw [e]
  induction records with
  | nil => rfl
  | cons r rs ih =>
    rw [List.foldl_cons]
    have e2 : (({ is_open := false, contents := "" } : ofstream).put r.to_csv).endl =
        { is_open := false, contents := "" } := rfl
    rw [e2, ih]

theorem split_lines_text (ls : List String) (h : ∀ l ∈ ls, '\n' ∉ l.data) :
    split_lines (lines_text ls) = ls.map String.data ++ [[]] := by
  induction ls with
  | nil => rfl
  | cons l ls ih =>
    have hl : ∀ x ∈ l.data, ¬ ((x == '\n') = true) := by
      intro x hx hx'
      have : x = '\n' := by simpa using hx'
      exact h l (List.mem_cons_self _ _) (this ▸ hx)
    have ih' := ih (fun m hm => h m (List.mem_cons_of_mem _ hm))
    unfold split_lines at ih' ⊢
    have e : (lines_text (l :: ls)).data = l.data ++ '\n' :: (lines_text ls).data := by
      simp [lines_text]
    rw [e, List.splitOn, List.splitOnP_first _ _ hl '\n' (by simp)]
    rw [List.splitOn] at ih'
    rw [ih']
    simp

/-! ## The file name -/

theorem two_digits_chars (v : Int) :
    ∀ c ∈ (two_digits v).data, c = '0' ∨ c = '-' ∨ c.isDigit = true := by
  intro c hc
  unfold two_digits at hc
  simp only at hc
  split at hc
  · rcases List.mem_cons.mp (show c ∈ '0' :: (to_string v).data from hc) with e | e
    · exact Or.inl e
    · exact Or.inr (to_string_chars v c e)
  · exact Or.inr (to_string_chars v c hc)

theorem put_time_no_underscore (t : tm) : '_' ∉ (put_time t).data := by
  intro h
  unfold put_time at h
  simp only [String.data_append, List.mem_append] at h
  have hs : ∀ v : Int, '_' ∉ (to_string v).data := by
    intro v hv
    rcases to_string_chars v '_' hv with e | e
    · exact absurd e (by decide)
    · exact absurd e (by decide)
  have ht : ∀ v : Int, '_' ∉ (two_digits v).data := by
    intro v hv
    rcases two_digits_chars v '_' hv with e | e | e
    · exact absurd e (by decide)
    · exact absurd e (by decide)
    · exact absurd e (by decide)
  rcases h with (((((((((( h | h) | h) | h) | h) | h) | h) | h) | h) | h) | h)
  · exact hs _ h
  · exact absurd h (by decide)
  · exact ht _ h
  · exact absurd h (by decide)
  · exact ht _ h
  · exact absurd h (by decide)
  · exact ht _ h
  · exact absurd h (by decide)
  · exact ht _ h
  · exact absurd h (by decide)
  · exact ht _ h

theorem append_underscore_inj : ∀ (l₁ l₂ f₁ f₂ : List Char), '_' ∉ f₁ → '_' ∉ f₂ →
    l₁ ++ '_' :: f₁ = l₂ ++ '_' :: f₂ → l₁ = l₂ ∧ f₁ = f₂ := by
  intro l₁
  induction l₁ with
  | nil =>
    intro l₂ f₁ f₂ h₁ _ h
    cases l₂ with
    | nil => exact ⟨rfl, (List.cons.inj h).2⟩
    | cons c l₂ =>
      have e := (List.cons.inj h).2
      exact absurd (e ▸ List.mem_append_right l₂ (List.mem_cons_self _ _)) h₁
  | cons a l₁ ih =>
    intro l₂ f₁ f₂ h₁ h₂ h
    cases l₂ with
    | nil =>
      have e := (List.cons.inj h).2
      exact absurd (e ▸ List.mem_append_right l₁ (List.mem_cons_self _ _)) h₂
    | cons c l₂ =>
      have e := List.cons.inj h
      have r := ih l₂ f₁ f₂ h₁ h₂ e.2
      exact ⟨by rw [e.1, r.1], r.2⟩

theorem file_name_data (localtime : Int → tm) (name : String) (start : time_point) :
    (file_name localtime name start).data =
      "records__".data ++ ((((replace name '/' '_').data ++ ['_']) ++
        '_' :: (put_time (localtime (to_time_t start))).data) ++ ".csv".data) := by
  simp [file_name, String.data_append]

theorem file_name_inj (localtime₁ localtime₂ : Int → tm) (name₁ name₂ : String)
    (start₁ start₂ : time_point)
    (h : file_name localtime₁ name₁ start₁ = file_name localtime₂ name₂ start₂) :
    replace name₁ '/' '_' = replace name₂ '/' '_' ∧
      put_time (localtime₁ (to_time_t start₁)) = put_time (localtime₂ (to_time_t start₂)) := by
  have hd := congrArg String.data h
  rw [file_name_data, file_name_data] at hd
  have h1 := List.append_cancel_right (List.append_cancel_left hd)
  have h2 := append_underscore_inj _ _ _ _ (put_time_no_underscore _)
    (put_time_no_underscore _) h1
  exact ⟨String.ext (List.append_cancel_right h2.1), String.ext h2.2⟩

/-! ## The claims -/

/-- C1: `to_csv` joins the four renderings with nothing between them. The record with
time stamps 1000000, 2000000, 3000000 and 4000000 ns yields
`1000000200000030000004000000`, not `1000000,2000000,3000000,4000000`, and no record's
text contains a comma. -/
theorem to_csv_has_no_separator :
    ServiceRequestRecord.to_csv ⟨1000000, 2000000, 3000000, 4000000⟩ =
        "1000000200000030000004000000" ∧
      ServiceRequestRecord.to_csv ⟨1000000, 2000000, 3000000, 4000000⟩ ≠
        "1000000,2000000,3000000,4000000" ∧
      ∀ r : ServiceRequestRecord, ',' ∉ r.to_csv.data :=
  ⟨by decide, by decide, to_csv_no_comma⟩

/-- C2: one handled request appends exactly one record at the end of the store and leaves
the earlier records where they were; a new instance has an empty store, and after any
sequence of requests the store is the list of their records, in order: as many records
as requests, the i-th one being the record of the i-th request. -/
theorem store_grows_by_one_record_per_request :
    (∀ (node : InstrumentedServiceNode) (now₁ now₂ : time_point),
      (node.service_callback now₁ now₂).service_request_records_ =
        node.service_request_records_ ++ [record_of_request (now₁, now₂)]) ∧
    (∀ (name : String) (start : time_point),
      (InstrumentedServiceNode.create name start).service_request_records_ = []) ∧
    (∀ (name : String) (start : time_point) (requests : List (time_point × time_point)),
      ((InstrumentedServiceNode.create name start).handle_requests
          requests).service_request_records_ = requests.map record_of_request ∧
      ((InstrumentedServiceNode.create name start).handle_requests
          requests).service_request_records_.length = requests.length ∧
      ∀ i : Nat,
        ((InstrumentedServiceNode.create name start).handle_requests
            requests).service_request_records_[i]? =
          Option.map record_of_request requests[i]?) := by
  refine ⟨service_callback_records, fun _ _ => rfl, fun name start requests => ?_⟩
  rw [create_handle_requests_records]
  exact ⟨rfl, List.length_map _ _, fun i => List.getElem?_map _ _ _⟩

/-- C3, as stated, fails: when the second clock reading of a request (3) is earlier than
the first (5), the stored record has its callback time stamp after its response-sent
time stamp. -/
theorem callback_after_response_when_clock_steps_back :
    ¬ ∀ r ∈ ((InstrumentedServiceNode.create "/instrumented_service_node" 0).handle_requests
        [(5, 3)]).service_request_records_,
      r.callback_timestamp ≤ r.response_sent_timestamp := by
  decide

/-- C3, amended: if for every request the clock reading taken before returning is not
earlier than the one taken on entry, every record in the store has
`callback_timestamp ≤ response_sent_timestamp`. -/
theorem callback_le_response_of_ordered_readings (name : String) (start : time_point)
    (requests : List (time_point × time_point)) (h : ∀ p ∈ requests, p.1 ≤ p.2) :
    ∀ r ∈ ((InstrumentedServiceNode.create name start).handle_requests
        requests).service_request_records_,
      r.callback_timestamp ≤ r.response_sent_timestamp := by
  intro r hr
  rw [create_handle_requests_records, List.mem_map] at hr
  obtain ⟨p, hp, rfl⟩ := hr
  exact h p hp

/-- C3, amended, at two requests with clock readings (1, 2) and (3, 3). -/
theorem callback_le_response_of_ordered_readings_witness :
    (∀ p ∈ [((1 : time_point), (2 : time_point)), (3, 3)], p.1 ≤ p.2) ∧
    ∀ r ∈ ((InstrumentedServiceNode.create "/instrumented_service_node" 0).handle_requests
        [(1, 2), (3, 3)]).service_request_records_,
      r.callback_timestamp ≤ r.response_sent_timestamp :=
  ⟨by decide, callback_le_response_of_ordered_readings "/instrumented_service_node" 0
    [(1, 2), (3, 3)] (by decide)⟩

/-- C4: reading the text of `timestamp_to_string t` back as a decimal integer gives `t`,
for every nanosecond count `t` (zero and negative ones included), and
`timestamp_to_string` is injective. -/
theorem timestamp_to_string_round_trip :
    (∀ t : time_point,
      parse_decimal (ServiceRequestRecord.timestamp_to_string t) = some t) ∧
    Function.Injective ServiceRequestRecord.timestamp_to_string := by
  refine ⟨parse_decimal_to_string, fun a b hab => ?_⟩
  have ha := parse_decimal_to_string a
  have hb := parse_decimal_to_string b
  unfold ServiceRequestRecord.timestamp_to_string at hab
  rw [hab, hb] at ha
  exact (Option.some.inj ha).symm

/-- C5: when the file opens, the destructor leaves a file whose text is the header line
followed by one line per stored record, in store order, each line ended by a line
break; cut at its line breaks the text is exactly the header, then `to_csv` of each
record, then nothing after the last line break: `N + 1` lines for `N` records, and 4
lines after 3 handled requests. -/
theorem shutdown_file_lines (localtime : Int → tm) (node : InstrumentedServiceNode) :
    (node.destructor localtime true).file =
        some (file_name localtime node.fully_qualified_name node.start_time_,
          lines_text (ServiceRequestRecord.csv_header ::
            node.service_request_records_.map ServiceRequestRecord.to_csv)) ∧
    split_lines (lines_text (ServiceRequestRecord.csv_header ::
        node.service_request_records_.map ServiceRequestRecord.to_csv)) =
      (ServiceRequestRecord.csv_header.data ::
        node.service_request_records_.map (fun r => r.to_csv.data)) ++ [[]] ∧
    (ServiceRequestRecord.csv_header.data ::
        node.service_request_records_.map (fun r => r.to_csv.data)).length =
      node.service_request_records_.length + 1 ∧
    ∀ (name : String) (start : time_point) (p₁ p₂ p₃ : time_point × time_point),
      (ServiceRequestRecord.csv_header.data ::
        ((InstrumentedServiceNode.create name start).handle_requests
          [p₁, p₂, p₃]).service_request_records_.map (fun r => r.to_csv.data)).length = 4 := by
  refine ⟨?_, ?_, by simp, ?_⟩
  · unfold InstrumentedServiceNode.destructor
    simp only [write_records_open, if_true]
  · rw [split_lines_text]
    · simp [List.map_map, Function.comp_def]
    · intro l hl
      rcases List.mem_cons.mp hl with e | e
      · subst e; decide
      · obtain ⟨r, _, rfl⟩ := List.mem_map.mp e
        exact to_csv_no_line_break r
  · intro name start p₁ p₂ p₃
    rw [create_handle_requests_records]
    rfl

/-- C6, as stated, fails: in the UTC zone, the instances named `/a/b` and `/a_b`, started
at 1700000000000000000 ns and at 1700000000999999999 ns (both within the second
2023-11-14 22:13:20), differ in name and in start time and get the same file name
`records___a_b__2023.11.14-22:13:20.csv`; so do two instances with one name and these
two start times, and two instances with these two names and one start time. -/
theorem file_name_collision :
    "/a/b" ≠ "/a_b" ∧ (1700000000000000000 : time_point) ≠ 1700000000999999999 ∧
    to_time_t 1700000000000000000 = 1700000000 ∧
    to_time_t 1700000000999999999 = 1700000000 ∧
    utc_localtime 1700000000 =
      { tm_year := 123, tm_mon := 10, tm_mday := 14, tm_hour := 22, tm_min := 13,
        tm_sec := 20 } ∧
    file_name utc_localtime "/a/b" 1700000000000000000 =
      "records___a_b__2023.11.14-22:13:20.csv" ∧
    file_name utc_localtime "/a_b" 1700000000999999999 =
      "records___a_b__2023.11.14-22:13:20.csv" ∧
    file_name utc_localtime "/a/b" 1700000000999999999 =
      "records___a_b__2023.11.14-22:13:20.csv" ∧
    file_name utc_localtime "/a_b" 1700000000000000000 =
      "records___a_b__2023.11.14-22:13:20.csv" := by
  decide

/-- C6, amended: the file name is `records__`, the name with every `/` replaced by `_`,
`__`, the start time formatted as `%Y.%m.%d-%H:%M:%S`, and `.csv`; and two instances
(each with its own local time zone) get the same file name exactly when their names
agree after the replacement and their formatted start times agree: the file names
differ exactly when the replaced names differ or the formatted start times differ. -/
theorem file_name_eq_iff (localtime₁ localtime₂ : Int → tm) (name₁ name₂ : String)
    (start₁ start₂ : time_point) :
    file_name localtime₁ name₁ start₁ =
        "records__" ++ replace name₁ '/' '_' ++ "__" ++
          put_time (localtime₁ (to_time_t start₁)) ++ ".csv" ∧
    (file_name localtime₁ name₁ start₁ = file_name localtime₂ name₂ start₂ ↔
      replace name₁ '/' '_' = replace name₂ '/' '_' ∧
        put_time (localtime₁ (to_time_t start₁)) =
          put_time (localtime₂ (to_time_t start₂))) ∧
    (file_name localtime₁ name₁ start₁ ≠ file_name localtime₂ name₂ start₂ ↔
      replace name₁ '/' '_' ≠ replace name₂ '/' '_' ∨
        put_time (localtime₁ (to_time_t start₁)) ≠
          put_time (localtime₂ (to_time_t start₂))) := by
  have hiff : file_name localtime₁ name₁ start₁ = file_name localtime₂ name₂ start₂ ↔
      replace name₁ '/' '_' = replace name₂ '/' '_' ∧
        put_time (localtime₁ (to_time_t start₁)) =
          put_time (localtime₂ (to_time_t start₂)) := by
    constructor
    · exact file_name_inj localtime₁ localtime₂ name₁ name₂ start₁ start₂
    · rintro ⟨h1, h2⟩
      unfold file_name
      simp only [h1, h2]
  refine ⟨rfl, hiff, ?_⟩
  rw [Ne, hiff, not_and_or]

/-- C7: `csv_header` is the literal
`source timestamp, destination timestamp, callback timestamp, response sent timestamp`;
cut at its commas it has exactly four columns, which (leading blank dropped) are
`source timestamp`, `destination timestamp`, `callback timestamp` and
`response sent timestamp`, the order in which `to_csv` emits the four fields. -/
theorem csv_header_columns :
    ServiceRequestRecord.csv_header =
      "source timestamp, destination timestamp, callback timestamp, response sent timestamp" ∧
    List.splitOn ',' ServiceRequestRecord.csv_header.data =
      ["source timestamp".data, " destination timestamp".data, " callback timestamp".data,
        " response sent timestamp".data] ∧
    (List.splitOn ',' ServiceRequestRecord.csv_header.data).length = 4 ∧
    (List.splitOn ',' ServiceRequestRecord.csv_header.data).map
        (fun column => column.dropWhile (fun c => c == ' ')) =
      ["source timestamp".data, "destination timestamp".data, "callback timestamp".data,
        "response sent timestamp".data] ∧
    ∀ r : ServiceRequestRecord,
      r.to_csv =
        ServiceRequestRecord.timestamp_to_string r.source_timestamp ++
        ServiceRequestRecord.timestamp_to_string r.destination_timestamp ++
        ServiceRequestRecord.timestamp_to_string r.callback_timestamp ++
        ServiceRequestRecord.timestamp_to_string r.response_sent_timestamp :=
  ⟨rfl, by decide, by decide, by decide, fun _ => rfl⟩

/-- C8: every record the request handler appends has `source_timestamp` and
`destination_timestamp` equal to the value-initialised time point 0, whose rendering is
the text `0`; so the text of every such record starts with `0` for the source, then `0`
for the destination, then the renderings of the two captured time stamps. -/
theorem unset_timestamps_render_as_zero (name : String) (start : time_point)
    (requests : List (time_point × time_point)) :
    ServiceRequestRecord.timestamp_to_string 0 = "0" ∧
    ∀ r ∈ ((InstrumentedServiceNode.create name start).handle_requests
        requests).service_request_records_,
      r.source_timestamp = 0 ∧ r.destination_timestamp = 0 ∧
      ServiceRequestRecord.timestamp_to_string r.source_timestamp = "0" ∧
      ServiceRequestRecord.timestamp_to_string r.destination_timestamp = "0" ∧
      r.to_csv = "0" ++ "0" ++
        ServiceRequestRecord.timestamp_to_string r.callback_timestamp ++
        ServiceRequestRecord.timestamp_to_string r.response_sent_timestamp := by
  have h0 : ServiceRequestRecord.timestamp_to_string 0 = "0" := by decide
  refine ⟨h0, fun r hr => ?_⟩
  rw [create_handle_requests_records, List.mem_map] at hr
  obtain ⟨p, _, rfl⟩ := hr
  refine ⟨rfl, rfl, h0, h0, ?_⟩
  show ServiceRequestRecord.timestamp_to_string 0 ++ ServiceRequestRecord.timestamp_to_string 0 ++
    ServiceRequestRecord.timestamp_to_string p.1 ++
    ServiceRequestRecord.timestamp_to_string p.2 = _
  rw [h0]
  rfl

/-- C8 at one request with clock readings (7, 9): its record is in the store and its text
is `0`, `0`, then the two captured time stamps. -/
theorem unset_timestamps_render_as_zero_witness :
    (⟨0, 0, 7, 9⟩ : ServiceRequestRecord) ∈
        ((InstrumentedServiceNode.create "/instrumented_service_node" 5).handle_requests
          [(7, 9)]).service_request_records_ ∧
    ServiceRequestRecord.to_csv ⟨0, 0, 7, 9⟩ = "0" ++ "0" ++
        ServiceRequestRecord.timestamp_to_string 7 ++
        ServiceRequestRecord.timestamp_to_string 9 :=
  ⟨by decide,
    ((unset_timestamps_render_as_zero "/instrumented_service_node" 5 [(7, 9)]).2
      ⟨0, 0, 7, 9⟩ (by decide)).2.2.2.2⟩

/-- C9, as stated, fails: for a node with one record whose output file cannot be opened,
the destructor prints on the standard output exactly what it prints when the file is
written, prints nothing on the standard error channel in either run, and leaves no
file. -/
theorem open_failure_is_not_reported :
    (((InstrumentedServiceNode.create "/instrumented_service_node" 0).handle_requests
        [(1, 2)]).destructor utc_localtime false).stdout_text =
      (((InstrumentedServiceNode.create "/instrumented_service_node" 0).handle_requests
        [(1, 2)]).destructor utc_localtime true).stdout_text ∧
    (((InstrumentedServiceNode.create "/instrumented_service_node" 0).handle_requests
        [(1, 2)]).destructor utc_localtime false).stderr_text =
      (((InstrumentedServiceNode.create "/instrumented_service_node" 0).handle_requests
        [(1, 2)]).destructor utc_localtime true).stderr_text ∧
    (((InstrumentedServiceNode.create "/instrumented_service_node" 0).handle_requests
        [(1, 2)]).destructor utc_localtime false).file = none ∧
    (((InstrumentedServiceNode.create "/instrumented_service_node" 0).handle_requests
        [(1, 2)]).destructor utc_localtime true).file ≠ none := by
  decide

/-- C9, amended: when the output file cannot be opened, the destructor still runs through,
leaves no file (the records are dropped), prints nothing on the standard error channel,
and prints on the standard output only the line `Writing output file '...'...`, the same
line as in a run whose file is written. -/
theorem open_failure_is_silent (localtime : Int → tm) (node : InstrumentedServiceNode) :
    (node.destructor localtime false).file = none ∧
    (node.destructor localtime false).stderr_text = "" ∧
    (node.destructor localtime false).stdout_text =
      "Writing output file \x27" ++
        file_name localtime node.fully_qualified_name node.start_time_ ++ "\x27...\n" ∧
    (node.destructor localtime false).stdout_text =
      (node.destructor localtime true).stdout_text ∧
    (node.destructor localtime false).stderr_text =
      (node.destructor localtime true).stderr_text := by
  refine ⟨?_, rfl, rfl, rfl, rfl⟩
  unfold InstrumentedServiceNode.destructor
  simp only [write_records_closed]
  rfl

/-- C10: `to_csv` is not injective, even on records the handler produces: the records
with callback 1 ns, response 234 ns and with callback 12 ns, response 34 ns (source and
destination unset, callback not after response) are different, each is what the handler
stores for such clock readings, and both have the text `001234`. -/
theorem to_csv_not_injective :
    ¬ Function.Injective ServiceRequestRecord.to_csv ∧
    (⟨0, 0, 1, 234⟩ : ServiceRequestRecord) ≠ ⟨0, 0, 12, 34⟩ ∧
    ServiceRequestRecord.to_csv ⟨0, 0, 1, 234⟩ = "001234" ∧
    ServiceRequestRecord.to_csv ⟨0, 0, 12, 34⟩ = "001234" ∧
    ((InstrumentedServiceNode.create "/instrumented_service_node" 0).handle_requests
        [(1, 234)]).service_request_records_ = [⟨0, 0, 1, 234⟩] ∧
    ((InstrumentedServiceNode.create "/instrumented_service_node" 0).handle_requests
        [(12, 34)]).service_request_records_ = [⟨0, 0, 12, 34⟩] ∧
    (1 : time_point) ≤ 234 ∧ (12 : time_point) ≤ 34 := by
  refine ⟨fun h => ?_, by decide, by decide, by decide, by decide, by decide, by decide,
    by decide⟩
  have e : ServiceRequestRecord.to_csv ⟨0, 0, 1, 234⟩ =
      ServiceRequestRecord.to_csv ⟨0, 0, 12, 34⟩ := by decide
  exact absurd (h e) (by decide)

end InstrumentedService
